import Mathlib

/-!
Shallow embedding of the allocation / budget / time-entry validation core of
the TimeFlow backend (`backend/app/apis/{projects,services,time_entries}`).

Conventions of the embedding:
* the relational store (`projects`, `companies`, `project_companies`,
  `services`, `time_entries` tables) is a `DB` record of lists of rows;
* SQL numerics (`NUMERIC`, Python `float`) are modelled as `ℚ`;
* SQL `NULL` is `Option.none`;
* a `time` value is the number of seconds since midnight (as `ℚ`), so the
  duration in hours between two times on the same date is `(e - s) / 3600`,
  exactly as `datetime.combine` subtraction followed by
  `total_seconds() / 3600.0` computes it;
* dates are opaque `Int` values (only equality of dates is ever used);
* each endpoint handler is a function `DB → ... → Except ApiError ...`
  mirroring the Python control flow; `HTTPException(status, detail)`
  becomes `ApiError.mk status detail`;
* auto-generated row ids come from a `next_id` counter in `DB`;
* employee resolution (`get_or_create_employee`) is out of scope per the
  spec; handlers take the resolved `employee_id` as a parameter.
-/

/-- One row of the `project_companies` table (the Allocation Ledger). -/
structure Allocation where
  project_id : Nat
  company_id : Nat
  available_hours : Option ℚ
  unlimited_hours : Bool
deriving DecidableEq, Repr

/-- One row of the `companies` table (fields the core reads). -/
structure Company where
  id : Nat
  company_name : String
deriving DecidableEq, Repr

/-- One row of the `projects` table (fields the core reads). -/
structure Project where
  id : Nat
  project_name : String
  description : Option String
deriving DecidableEq, Repr

/-- One row of the `services` table. -/
structure Service where
  id : Nat
  project_id : Nat
  company_id : Option Nat
  name : String
  price_type : String
  budget_hours : ℚ
  fixed_price : Option ℚ
  hourly_rate : Option ℚ
  start_date : Option Int
  end_date : Option Int
  service_color : Option String
deriving DecidableEq, Repr

/-- One row of the `time_entries` table. -/
structure TimeEntry where
  id : Nat
  employee_id : Nat
  company_id : Nat
  project_id : Nat
  service_id : Option Nat
  date : Int
  hours_worked : ℚ
  start_time : Option ℚ
  end_time : Option ℚ
  comment : Option String
deriving DecidableEq, Repr

/-- The relational store. -/
structure DB where
  companies : List Company
  projects : List Project
  allocations : List Allocation
  services : List Service
  time_entries : List TimeEntry
  next_id : Nat
deriving DecidableEq, Repr

/-- `HTTPException(status_code, detail)`. -/
structure ApiError where
  status_code : Nat
  detail : String
deriving DecidableEq, Repr

/-- `SELECT ... FROM project_companies WHERE project_id = $1 AND company_id = $2`. -/
def DB.findAlloc (db : DB) (pid cid : Nat) : Option Allocation :=
  db.allocations.find? (fun a => a.project_id == pid && a.company_id == cid)

/-- `SELECT COALESCE(SUM(hours_worked), 0) FROM time_entries WHERE project_id = $1 AND company_id = $2`. -/
def DB.usedHours (db : DB) (pid cid : Nat) : ℚ :=
  ((db.time_entries.filter (fun te => te.project_id == pid && te.company_id == cid)).map
    (fun te => te.hours_worked)).sum

/-- Same sum with `AND id <> $3` (the update path excludes the entry itself). -/
def DB.usedHoursExcluding (db : DB) (pid cid entry_id : Nat) : ℚ :=
  ((db.time_entries.filter
      (fun te => te.project_id == pid && te.company_id == cid && te.id != entry_id)).map
    (fun te => te.hours_worked)).sum

/-- Boolean success test on `Except`. -/
def exceptIsOk : Except ApiError α → Bool
  | .ok _ => true
  | .error _ => false

/-- The floating tolerance `1e-6` used when comparing supplied and computed hours. -/
def tolerance : ℚ := 1 / 1000000

/-- Option merge used by the update endpoints: a provided value wins, else keep the old one. -/
def orElseOpt (a b : Option α) : Option α :=
  match a with
  | some x => some x
  | none => b

-- ---------------------------------------------------------------------------
-- time_entries endpoint helpers
-- ---------------------------------------------------------------------------

/-- `_duration_hours_from_times`: duration in hours between two same-day times
(seconds since midnight); rejects `end_time <= start_time`. -/
def durationHoursFromTimes (start_t end_t : ℚ) : Except ApiError ℚ :=
  if end_t ≤ start_t then
    .error ⟨400, "end_time must be after start_time"⟩
  else
    .ok ((end_t - start_t) / 3600)

/-- The SQL overlap condition `NOT (end_time <= $start OR start_time >= $end)`
applied to one stored row; rows lacking either time are ignored
(`start_time IS NOT NULL AND end_time IS NOT NULL`). -/
def windowOverlaps (new_start new_end : ℚ) (te : TimeEntry) : Bool :=
  match te.start_time, te.end_time with
  | some es, some ee => decide (¬ (ee ≤ new_start ∨ es ≥ new_end))
  | _, _ => false

/-- `_has_overlap`: is there a stored entry for the same employee and date,
with both times set, other than `exclude_id`, whose window overlaps? -/
def hasOverlap (entries : List TimeEntry) (employee_id : Nat) (d : Int)
    (new_start new_end : ℚ) (exclude_id : Option Nat) : Bool :=
  entries.any fun te =>
    te.employee_id == employee_id && te.date == d &&
    (match exclude_id with
     | some i => te.id != i
     | none => true) &&
    windowOverlaps new_start new_end te

/-- Request body of `POST /time-entries` (`TimeEntryCreateRequest`). -/
structure TimeEntryCreateRequest where
  company_id : Nat
  project_id : Nat
  date : Int
  service_id : Option Nat
  comment : Option String
  hours_worked : Option ℚ
  start_time : Option ℚ
  end_time : Option ℚ
deriving DecidableEq, Repr

/-- The input-combination validation at the top of `create_time_entry`:
resolve the effective `hours_worked` from the supplied hours and/or window. -/
def resolveHours (entry : TimeEntryCreateRequest) : Except ApiError ℚ :=
  match entry.start_time, entry.end_time with
  | some s, some e =>
    match durationHoursFromTimes s e with
    | .error err => .error err
    | .ok computed =>
      match entry.hours_worked with
      | some hw =>
        if |hw - computed| > tolerance then
          .error ⟨400, "hours_worked must match the duration between start_time and end_time"⟩
        else
          .ok computed
      | none => .ok computed
  | _, _ =>
    match entry.hours_worked with
    | some hw => .ok hw
    | none => .error ⟨400, "Provide either hours_worked, or start_time and end_time"⟩

/-- `f"Project {p} is not linked to company {c}"`. -/
def notLinkedMsg (pid cid : Nat) : String :=
  "Project " ++ toString pid ++ " is not linked to company " ++ toString cid

/-- `f"Cannot log {h} hours. Only {r} hours remaining."`. -/
def remainingMsg (hours remaining : ℚ) : String :=
  "Cannot log " ++ toString hours ++ " hours. Only " ++ toString remaining ++ " hours remaining."

/-- The row the create endpoint inserts (`INSERT INTO time_entries ...`). -/
def newTimeEntryRow (db : DB) (employee_id : Nat) (entry : TimeEntryCreateRequest)
    (hours : ℚ) : TimeEntry :=
  { id := db.next_id, employee_id := employee_id,
    company_id := entry.company_id, project_id := entry.project_id,
    service_id := entry.service_id, date := entry.date,
    hours_worked := hours, start_time := entry.start_time,
    end_time := entry.end_time, comment := entry.comment }

/-- Append a freshly inserted row to the store. -/
def insertTimeEntry (db : DB) (te : TimeEntry) : DB :=
  { db with time_entries := db.time_entries ++ [te], next_id := db.next_id + 1 }

/-- `POST /time-entries` (`create_time_entry`), after employee resolution. -/
def create_time_entry (db : DB) (employee_id : Nat) (entry : TimeEntryCreateRequest) :
    Except ApiError (DB × TimeEntry) :=
  match resolveHours entry with
  | .error err => .error err
  | .ok hours =>
    if hours < 0 ∨ hours > 24 then
      .error ⟨400, "Hours worked must be between 0 and 24"⟩
    else
      match db.findAlloc entry.project_id entry.company_id with
      | none => .error ⟨400, notLinkedMsg entry.project_id entry.company_id⟩
      | some pc =>
        if pc.unlimited_hours = false ∧
            db.usedHours entry.project_id entry.company_id + hours >
              pc.available_hours.getD 0 then
          .error ⟨400, remainingMsg hours
            (pc.available_hours.getD 0 - db.usedHours entry.project_id entry.company_id)⟩
        else
          match entry.start_time, entry.end_time with
          | some s, some e =>
            if hasOverlap db.time_entries employee_id entry.date s e none then
              .error ⟨400, "This time range overlaps with an existing entry for this day."⟩
            else
              .ok (insertTimeEntry db (newTimeEntryRow db employee_id entry hours),
                   newTimeEntryRow db employee_id entry hours)
          | _, _ =>
            .ok (insertTimeEntry db (newTimeEntryRow db employee_id entry hours),
                 newTimeEntryRow db employee_id entry hours)

/-- Request body of `PUT /time-entries/{id}` (`TimeEntryUpdateRequest`):
only these five fields exist; project/company/date/employee are not part of
the patch shape at all. -/
structure TimeEntryUpdateRequest where
  service_id : Option Nat
  comment : Option String
  hours_worked : Option ℚ
  start_time : Option ℚ
  end_time : Option ℚ
deriving DecidableEq, Repr

/-- The SET clause of the update statement in `update_time_entry`: hours and
times get the merged values, while `service_id` and `comment` are written
straight from the payload. -/
def applyTimeEntryUpdate (payload : TimeEntryUpdateRequest)
    (new_hours : ℚ) (new_start new_end : Option ℚ) (te : TimeEntry) : TimeEntry :=
  { te with hours_worked := new_hours, start_time := new_start, end_time := new_end,
            service_id := payload.service_id, comment := payload.comment }

/-- The merged time window of an update: a provided bound wins, else the
stored one is kept (`payload.start_time if ... is not None else current`). -/
def mergedStart (payload : TimeEntryUpdateRequest) (cur : TimeEntry) : Option ℚ :=
  orElseOpt payload.start_time cur.start_time

/-- See `mergedStart`. -/
def mergedEnd (payload : TimeEntryUpdateRequest) (cur : TimeEntry) : Option ℚ :=
  orElseOpt payload.end_time cur.end_time

/-- Hour resolution of `update_time_entry`: with a full merged window the
hours are recomputed from it (and must agree with a supplied `hours_worked`
within tolerance); otherwise the supplied hours or the stored ones stand. -/
def resolveUpdateHours (payload : TimeEntryUpdateRequest) (cur : TimeEntry) :
    Except ApiError ℚ :=
  match mergedStart payload cur, mergedEnd payload cur with
  | some s, some e =>
    match durationHoursFromTimes s e with
    | .error err => .error err
    | .ok computed =>
      match payload.hours_worked with
      | some hw =>
        if |hw - computed| > tolerance then
          .error ⟨400, "hours_worked must match the duration between start_time and end_time"⟩
        else
          .ok computed
      | none => .ok computed
  | _, _ => .ok (payload.hours_worked.getD cur.hours_worked)

/-- `PUT /time-entries/{id}` (`update_time_entry`), after employee resolution. -/
def update_time_entry (db : DB) (employee_id entry_id : Nat)
    (payload : TimeEntryUpdateRequest) : Except ApiError (DB × TimeEntry) :=
  match db.time_entries.find? (fun te => te.id == entry_id && te.employee_id == employee_id) with
  | none => .error ⟨404, "Time entry not found"⟩
  | some cur =>
    match resolveUpdateHours payload cur with
    | .error err => .error err
    | .ok new_hours =>
      if new_hours < 0 ∨ new_hours > 24 then
        .error ⟨400, "Hours worked must be between 0 and 24"⟩
      else
        if (match mergedStart payload cur, mergedEnd payload cur with
            | some s, some e =>
              hasOverlap db.time_entries employee_id cur.date s e (some entry_id)
            | _, _ => false) then
          .error ⟨400, "This time range overlaps with an existing entry for this day."⟩
        else
          match db.findAlloc cur.project_id cur.company_id with
          | none => .error ⟨400, "Project is not linked to company"⟩
          | some a =>
            if a.unlimited_hours = false ∧
                db.usedHoursExcluding cur.project_id cur.company_id entry_id + new_hours >
                  a.available_hours.getD 0 then
              .error ⟨400, remainingMsg new_hours
                (a.available_hours.getD 0 -
                  db.usedHoursExcluding cur.project_id cur.company_id entry_id)⟩
            else
              .ok ({ db with time_entries := db.time_entries.map (fun te =>
                      if te.id == entry_id then
                        applyTimeEntryUpdate payload new_hours (mergedStart payload cur)
                          (mergedEnd payload cur) te
                      else te) },
                   applyTimeEntryUpdate payload new_hours (mergedStart payload cur)
                     (mergedEnd payload cur) cur)

-- ---------------------------------------------------------------------------
-- services endpoints
-- ---------------------------------------------------------------------------

/-- Request body of `POST /services` (`ServiceCreateRequest`). -/
structure ServiceCreateRequest where
  project_id : Nat
  company_id : Option Nat
  name : String
  price_type : String
  budget_hours : ℚ
  fixed_price : Option ℚ
  hourly_rate : Option ℚ
  start_date : Option Int
  end_date : Option Int
  service_color : Option String
deriving DecidableEq, Repr

/-- Request body of `PUT /services/{id}` (`ServiceUpdateRequest`). -/
structure ServiceUpdateRequest where
  company_id : Option Nat
  name : Option String
  price_type : Option String
  budget_hours : Option ℚ
  fixed_price : Option ℚ
  hourly_rate : Option ℚ
  start_date : Option Int
  end_date : Option Int
  service_color : Option String
deriving DecidableEq, Repr

/-- `f"budget_hours ({r}) cannot exceed available hours ({a}) from project_companies"`. -/
def budgetExceededMsg (requested available : ℚ) : String :=
  "budget_hours (" ++ toString requested ++ ") cannot exceed available hours (" ++
    toString available ++ ") from project_companies"

/-- The available-hours figure `create_service` validates against.  With a
company: the allocation row's hours, the `999999` sentinel when the row is
unlimited, `0` when the row is missing or its hours are NULL/0 (Python
truthiness of `avail_row["available_hours"]`).  Without a company: the sum
of non-unlimited rows' hours, or the sentinel if any row is unlimited. -/
def serviceAvailableHoursCreate (db : DB) (pid : Nat) (company_id : Option Nat) : ℚ :=
  match company_id with
  | some cid =>
    match db.findAlloc pid cid with
    | some r => if r.unlimited_hours then 999999 else r.available_hours.getD 0
    | none => 0
  | none =>
    let rows := db.allocations.filter (fun a => a.project_id == pid)
    if rows.any (fun a => a.unlimited_hours) then 999999
    else (rows.map (fun a => if a.unlimited_hours then 0 else a.available_hours.getD 0)).sum

/-- The row the create endpoint inserts (`INSERT INTO services ...`). -/
def newServiceRow (db : DB) (req : ServiceCreateRequest) : Service :=
  { id := db.next_id, project_id := req.project_id, company_id := req.company_id,
    name := req.name, price_type := req.price_type, budget_hours := req.budget_hours,
    fixed_price := req.fixed_price, hourly_rate := req.hourly_rate,
    start_date := req.start_date, end_date := req.end_date,
    service_color := req.service_color }

/-- `POST /services` (`create_service`).  Note the Python truthiness test
`if service.company_id:` on the company-existence check: `company_id = 0`
skips it. -/
def create_service (db : DB) (req : ServiceCreateRequest) : Except ApiError (DB × Service) :=
  if (db.projects.find? (fun p => p.id == req.project_id)).isNone then
    .error ⟨404, "Project not found"⟩
  else if (req.company_id.getD 0 != 0) &&
      (db.companies.find? (fun c => c.id == req.company_id.getD 0)).isNone then
    .error ⟨404, "Company not found"⟩
  else
    if req.budget_hours > serviceAvailableHoursCreate db req.project_id req.company_id then
      .error ⟨400, budgetExceededMsg req.budget_hours
        (serviceAvailableHoursCreate db req.project_id req.company_id)⟩
    else
      .ok ({ db with services := db.services ++ [newServiceRow db req],
                     next_id := db.next_id + 1 }, newServiceRow db req)

/-- Did the update payload provide any field at all (`if not update_fields`)? -/
def ServiceUpdateRequest.hasFields (r : ServiceUpdateRequest) : Bool :=
  r.company_id.isSome || r.name.isSome || r.price_type.isSome || r.budget_hours.isSome ||
    r.fixed_price.isSome || r.hourly_rate.isSome || r.start_date.isSome ||
    r.end_date.isSome || r.service_color.isSome

/-- The available-hours figure the `update_service` re-check uses.  Unlike the
create path, its queries read `COALESCE(available_hours, 0)` and never look at
`unlimited_hours`: with a company it is the row's hours with NULL as 0 (0 when
the row is missing), without a company it is `COALESCE(SUM(available_hours), 0)`
over all rows of the project. -/
def updateAvailableHours (db : DB) (pid : Nat) (company_id : Option Nat) : ℚ :=
  match company_id with
  | some cid =>
    match db.findAlloc pid cid with
    | some r => r.available_hours.getD 0
    | none => 0
  | none =>
    ((db.allocations.filter (fun a => a.project_id == pid)).map
      (fun a => a.available_hours.getD 0)).sum

/-- The SET clause of the dynamically built service update: only provided
fields are written. -/
def applyServiceUpdate (r : ServiceUpdateRequest) (s : Service) : Service :=
  { s with
    company_id := orElseOpt r.company_id s.company_id,
    name := r.name.getD s.name,
    price_type := r.price_type.getD s.price_type,
    budget_hours := r.budget_hours.getD s.budget_hours,
    fixed_price := orElseOpt r.fixed_price s.fixed_price,
    hourly_rate := orElseOpt r.hourly_rate s.hourly_rate,
    start_date := orElseOpt r.start_date s.start_date,
    end_date := orElseOpt r.end_date s.end_date,
    service_color := orElseOpt r.service_color s.service_color }

/-- `PUT /services/{id}` (`update_service`). -/
def update_service (db : DB) (service_id : Nat) (req : ServiceUpdateRequest) :
    Except ApiError (DB × Service) :=
  match db.services.find? (fun s => s.id == service_id) with
  | none => .error ⟨404, "Service not found"⟩
  | some existing =>
    if (req.company_id.getD 0 != 0) &&
        (db.companies.find? (fun c => c.id == req.company_id.getD 0)).isNone then
      .error ⟨404, "Company not found"⟩
    else if !req.hasFields then
      .error ⟨400, "No fields to update"⟩
    else
      if (req.company_id.isSome || req.budget_hours.isSome) = true ∧
          req.budget_hours.getD existing.budget_hours >
            updateAvailableHours db existing.project_id
              (orElseOpt req.company_id existing.company_id) then
        .error ⟨400, budgetExceededMsg (req.budget_hours.getD existing.budget_hours)
          (updateAvailableHours db existing.project_id
            (orElseOpt req.company_id existing.company_id))⟩
      else
        .ok ({ db with services := db.services.map (fun s =>
                if s.id == service_id then applyServiceUpdate req s else s) },
             applyServiceUpdate req existing)

-- ---------------------------------------------------------------------------
-- projects endpoints (allocation ledger)
-- ---------------------------------------------------------------------------

/-- One element of `company_links` (`ProjectCompanyLink`). -/
structure ProjectCompanyLink where
  company_id : Nat
  available_hours : Option ℚ
  unlimited_hours : Bool
deriving DecidableEq, Repr

/-- The row `update_project_companies` inserts for one link: unlimited links
store `(NULL, TRUE)`, bounded links store `(available_hours, FALSE)`. -/
def linkToAllocation (pid : Nat) (link : ProjectCompanyLink) : Allocation :=
  if link.unlimited_hours then
    { project_id := pid, company_id := link.company_id,
      available_hours := none, unlimited_hours := true }
  else
    { project_id := pid, company_id := link.company_id,
      available_hours := link.available_hours, unlimited_hours := false }

/-- `update_project_companies`: delete all `project_companies` rows of the
project, then insert one row per link. -/
def update_project_companies (db : DB) (pid : Nat) (links : List ProjectCompanyLink) : DB :=
  { db with allocations :=
      db.allocations.filter (fun a => a.project_id != pid) ++ links.map (linkToAllocation pid) }

/-- One element of a fetched project's `company_links` (`ProjectCompanyResponse`). -/
structure ProjectCompanyResponse where
  company_id : Nat
  company_name : String
  available_hours : Option ℚ
  unlimited_hours : Bool
deriving DecidableEq, Repr

/-- `ProjectResponse` (the fields the core computes). -/
structure ProjectResponse where
  id : Nat
  project_name : String
  description : Option String
  company_links : List ProjectCompanyResponse
deriving DecidableEq, Repr

/-- `get_project_with_companies`: the project row, with its allocation rows
joined to `companies` and ordered by company name. -/
def get_project_with_companies (db : DB) (pid : Nat) : Option ProjectResponse :=
  match db.projects.find? (fun p => p.id == pid) with
  | none => none
  | some p =>
    let rows := (db.allocations.filter (fun a => a.project_id == pid)).filterMap
      (fun a => (db.companies.find? (fun c => c.id == a.company_id)).map
        (fun c => ProjectCompanyResponse.mk a.company_id c.company_name
          a.available_hours a.unlimited_hours))
    some { id := p.id, project_name := p.project_name, description := p.description,
           company_links := rows.mergeSort (fun x y => x.company_name ≤ y.company_name) }

-- ---------------------------------------------------------------------------
-- services summary endpoint
-- ---------------------------------------------------------------------------

/-- `COALESCE(SUM(te.hours_worked), 0)` over the time entries LEFT JOINed on
`s.id = te.service_id`. -/
def serviceSpentHours (db : DB) (sid : Nat) : ℚ :=
  ((db.time_entries.filter (fun te => te.service_id == some sid)).map
    (fun te => te.hours_worked)).sum

/-- The summary's per-service `budget_cost` CASE expression. -/
def serviceBudgetCost (s : Service) : ℚ :=
  if s.price_type == "FIXED" then s.fixed_price.getD 0
  else if s.price_type == "HOURLY" then s.budget_hours * s.hourly_rate.getD 0
  else 0

/-- The summary's per-service `spent_cost` CASE expression. -/
def serviceSpentCost (db : DB) (s : Service) : ℚ :=
  if s.price_type == "FIXED" then 0
  else if s.price_type == "HOURLY" then serviceSpentHours db s.id * s.hourly_rate.getD 0
  else 0

/-- One row of the summary (`ServiceRow`, fields the core computes). -/
structure ServiceRow where
  id : Nat
  project_id : Nat
  company_id : Option Nat
  name : String
  price_type : String
  budget_hours : ℚ
  spent_hours : ℚ
  budget_cost : ℚ
  spent_cost : ℚ
deriving DecidableEq, Repr

/-- Build one summary row from a stored service. -/
def mkServiceRow (db : DB) (s : Service) : ServiceRow :=
  { id := s.id, project_id := s.project_id, company_id := s.company_id,
    name := s.name, price_type := s.price_type, budget_hours := s.budget_hours,
    spent_hours := serviceSpentHours db s.id,
    budget_cost := serviceBudgetCost s,
    spent_cost := serviceSpentCost db s }

/-- `ServicesTotals`. -/
structure ServicesTotals where
  hours_budget : ℚ
  hours_spent : ℚ
  cost_budget : ℚ
  cost_spent : ℚ
deriving DecidableEq, Repr

/-- `ProjectServicesSummaryResponse`. -/
structure ProjectServicesSummaryResponse where
  services : List ServiceRow
  totals : ServicesTotals
deriving DecidableEq, Repr

/-- `SELECT COALESCE(SUM(CASE WHEN unlimited_hours = FALSE THEN available_hours
ELSE 0 END), 0) FROM project_companies WHERE project_id = $1` (SUM skips NULLs). -/
def projectTotalAvailableHours (db : DB) (pid : Nat) : ℚ :=
  ((db.allocations.filter (fun a => a.project_id == pid)).map
    (fun a => if a.unlimited_hours then 0 else a.available_hours.getD 0)).sum

/-- `unlimited_companies_count > 0` for the project. -/
def projectHasUnlimited (db : DB) (pid : Nat) : Bool :=
  (db.allocations.filter (fun a => a.project_id == pid)).any (fun a => a.unlimited_hours)

/-- `GET /services/project/{id}/summary` (`get_project_services_summary`):
rows per service of the project and the Python accumulation loop's totals. -/
def get_project_services_summary (db : DB) (pid : Nat) :
    Except ApiError ProjectServicesSummaryResponse :=
  if (db.projects.find? (fun p => p.id == pid)).isNone then
    .error ⟨404, "Project not found"⟩
  else
    let rows := (db.services.filter (fun s => s.project_id == pid)).map (mkServiceRow db)
    let totals := rows.foldl
      (fun (acc : ServicesTotals) r =>
        { hours_budget := acc.hours_budget + r.budget_hours,
          hours_spent := acc.hours_spent + r.spent_hours,
          cost_budget := acc.cost_budget + r.budget_cost,
          cost_spent := acc.cost_spent + r.spent_cost })
      ⟨0, 0, 0, 0⟩
    .ok { services := rows, totals := totals }

/-- The `remaining_hours` figure the summary endpoint computes (the `999999`
sentinel when any allocation of the project is unlimited, else total
non-unlimited available hours minus the services' summed budget hours). -/
def projectRemainingHours (db : DB) (pid : Nat) : ℚ :=
  if projectHasUnlimited db pid then 999999
  else projectTotalAvailableHours db pid -
    ((db.services.filter (fun s => s.project_id == pid)).map (fun s => s.budget_hours)).sum

-- ---------------------------------------------------------------------------
-- derived quantities used by the statements
-- ---------------------------------------------------------------------------

/-- Sum of `budget_hours` over the services tied to one (project, company) pair. -/
def servicesBudgetSum (db : DB) (pid : Nat) (cid : Option Nat) : ℚ :=
  ((db.services.filter (fun s => s.project_id == pid && s.company_id == cid)).map
    (fun s => s.budget_hours)).sum

instance {ε α : Type} [DecidableEq ε] [DecidableEq α] : DecidableEq (Except ε α) := fun x y =>
  match x, y with
  | .ok a, .ok b =>
    if h : a = b then isTrue (by rw [h]) else isFalse (fun hc => by cases hc; exact h rfl)
  | .error a, .error b =>
    if h : a = b then isTrue (by rw [h]) else isFalse (fun hc => by cases hc; exact h rfl)
  | .ok _, .error _ => isFalse (fun hc => by cases hc)
  | .error _, .ok _ => isFalse (fun hc => by cases hc)

-- ---------------------------------------------------------------------------
-- concrete stores used by counterexamples and witnesses
-- ---------------------------------------------------------------------------

/-- Scenario-1 store: allocation (project 1, company 1, 10 h, bounded) and an
existing service that already budgets all 10 hours. -/
def c1_db : DB :=
  { companies := [⟨1, "Acme"⟩],
    projects := [⟨1, "P", none⟩],
    allocations := [⟨1, 1, some 10, false⟩],
    services := [⟨100, 1, some 1, "S1", "HOURLY", 10, none, some 50, none, none, none⟩],
    time_entries := [],
    next_id := 101 }

/-- Scenario-1 second request: one more budget hour on the same pair. -/
def c1_req : ServiceCreateRequest :=
  ⟨1, some 1, "S2", "HOURLY", 1, none, some 50, none, none, none⟩

/-- Store with a single unlimited allocation for (project 1, company 1). -/
def c5_db : DB :=
  { companies := [⟨1, "Acme"⟩],
    projects := [⟨1, "P", none⟩],
    allocations := [⟨1, 1, none, true⟩],
    services := [],
    time_entries := [],
    next_id := 1 }

/-- Scenario-2 request: `budget_hours = 1000000` under the unlimited allocation. -/
def c5_req : ServiceCreateRequest :=
  ⟨1, some 1, "S", "HOURLY", 1000000, none, some 50, none, none, none⟩

/-- Store with an unlimited allocation and an existing service budgeting 5 h. -/
def c6_db : DB :=
  { companies := [⟨1, "Acme"⟩],
    projects := [⟨1, "P", none⟩],
    allocations := [⟨1, 1, none, true⟩],
    services := [⟨10, 1, some 1, "S", "HOURLY", 5, none, some 50, none, none, none⟩],
    time_entries := [],
    next_id := 11 }

/-- Update request raising only `budget_hours` to 10. -/
def c6_req : ServiceUpdateRequest :=
  ⟨none, none, none, some 10, none, none, none, none, none⟩

/-- Store with one time entry that carries a service link and a comment. -/
def c9_db : DB :=
  { companies := [⟨1, "Acme"⟩],
    projects := [⟨1, "P", none⟩],
    allocations := [⟨1, 1, none, true⟩],
    services := [⟨3, 1, some 1, "S", "HOURLY", 5, none, some 50, none, none, none⟩],
    time_entries := [⟨1, 7, 1, 1, some 3, 0, 2, none, none, some "keep"⟩],
    next_id := 4 }

/-- A patch payload that provides no field at all. -/
def c9_payload : TimeEntryUpdateRequest := ⟨none, none, none, none, none⟩

/-- A patch providing a new service link and comment only. -/
def c9_payload2 : TimeEntryUpdateRequest := ⟨some 5, some "x", none, none, none⟩

/-- Store whose single time entry fully consumes its bounded allocation and
occupies the window 09:00-11:00. -/
def c8_db : DB :=
  { companies := [⟨1, "Acme"⟩],
    projects := [⟨1, "P", none⟩],
    allocations := [⟨1, 1, some 2, false⟩],
    services := [],
    time_entries := [⟨1, 7, 1, 1, none, 0, 2, some 32400, some 39600, none⟩],
    next_id := 2 }

/-- The stored row of `c8_db`. -/
def c8_cur : TimeEntry := ⟨1, 7, 1, 1, none, 0, 2, some 32400, some 39600, none⟩

/-- A comment-only patch. -/
def c8_payload : TimeEntryUpdateRequest := ⟨none, some "hi", none, none, none⟩

/-- The row `c8_db`'s entry becomes under `c8_payload`. -/
def c8_te : TimeEntry := ⟨1, 7, 1, 1, none, 0, 2, some 32400, some 39600, some "hi"⟩

/-- Scenario-5 store: a bounded 8-hour allocation already fully consumed. -/
def c2_db : DB :=
  { companies := [⟨1, "Acme"⟩],
    projects := [⟨1, "P", none⟩],
    allocations := [⟨1, 1, some 8, false⟩],
    services := [],
    time_entries := [⟨1, 7, 1, 1, none, 0, 8, none, none, none⟩],
    next_id := 2 }

/-- Scenario-5 request: half an hour more on the exhausted pair. -/
def c2_entry : TimeEntryCreateRequest := ⟨1, 1, 0, none, none, some (1/2), none, none⟩

/-- Invariant-C compatibility of two stored entries: if both belong to the
same employee and date and both carry full time windows, the windows do not
overlap (touching endpoints allowed); entries lacking a window are exempt. -/
def entriesCompatible (e1 e2 : TimeEntry) : Prop :=
  e1.employee_id = e2.employee_id → e1.date = e2.date →
  ∀ s1 t1 s2 t2, e1.start_time = some s1 → e1.end_time = some t1 →
    e2.start_time = some s2 → e2.end_time = some t2 → (t1 ≤ s2 ∨ s1 ≥ t2)

/-- Scenario-4 store: employee 7 has an entry on the day with window
09:00-11:00 (32400-39600 s), under an unlimited allocation. -/
def c3_db : DB :=
  { companies := [⟨1, "Acme"⟩],
    projects := [⟨1, "P", none⟩],
    allocations := [⟨1, 1, none, true⟩],
    services := [],
    time_entries := [⟨1, 7, 1, 1, none, 0, 2, some 32400, some 39600, none⟩],
    next_id := 2 }

/-- Scenario-4 touching request: 11:00-12:00 (39600-43200 s). -/
def c3_touching : TimeEntryCreateRequest :=
  ⟨1, 1, 0, none, none, none, some 39600, some 43200⟩

/-- Scenario-4 intersecting request: 10:00-12:00 (36000-43200 s). -/
def c3_overlapping : TimeEntryCreateRequest :=
  ⟨1, 1, 0, none, none, none, some 36000, some 43200⟩

/-- Store for exercising `setAllocations`: two companies, one project, stale
allocation rows for this and another project. -/
def c7_db : DB :=
  { companies := [⟨1, "B"⟩, ⟨2, "A"⟩],
    projects := [⟨1, "P", none⟩],
    allocations := [⟨1, 9, some 3, false⟩, ⟨2, 1, some 4, false⟩],
    services := [],
    time_entries := [],
    next_id := 1 }

/-- A bounded link for company 1 and an unlimited link for company 2. -/
def c7_links : List ProjectCompanyLink := [⟨1, some 5, false⟩, ⟨2, none, true⟩]

/-- Store for the summary witness: one FIXED and one HOURLY service under a
10-hour allocation, with 4 hours logged on the HOURLY service. -/
def c10_db : DB :=
  { companies := [⟨1, "Acme"⟩],
    projects := [⟨1, "P", none⟩],
    allocations := [⟨1, 1, some 10, false⟩],
    services := [⟨1, 1, some 1, "F", "FIXED", 3, some 100, none, none, none, none⟩,
                 ⟨2, 1, some 1, "H", "HOURLY", 2, none, some 50, none, none, none⟩],
    time_entries := [⟨5, 7, 1, 1, some 2, 0, 4, none, none, none⟩],
    next_id := 6 }

/-- The summary rows and totals `c10_db` produces. -/
def c10_resp : ProjectServicesSummaryResponse :=
  { services := [⟨1, 1, some 1, "F", "FIXED", 3, 0, 100, 0⟩,
                 ⟨2, 1, some 1, "H", "HOURLY", 2, 4, 100, 200⟩],
    totals := ⟨5, 4, 200, 200⟩ }

-- ---------------------------------------------------------------------------
-- shared inversion lemmas
-- ---------------------------------------------------------------------------

/-- What a successful hour resolution on the update path pins down. -/
theorem resolveUpdateHours_ok_spec (payload : TimeEntryUpdateRequest) (cur : TimeEntry)
    (q : ℚ) (h : resolveUpdateHours payload cur = .ok q) :
    (∀ s e, mergedStart payload cur = some s → mergedEnd payload cur = some e →
      q = (e - s) / 3600) ∧
    ((mergedStart payload cur = none ∨ mergedEnd payload cur = none) →
      q = payload.hours_worked.getD cur.hours_worked) := by
  rcases hms : mergedStart payload cur with _ | s
  · constructor
    · intro s' e' hs' he'
      exact absurd hs' (by simp)
    · intro _
      simp only [resolveUpdateHours, hms] at h
      exact (Except.ok.inj h).symm
  · rcases hme : mergedEnd payload cur with _ | e
    · constructor
      · intro s' e' hs' he'
        exact absurd he' (by simp)
      · intro _
        simp only [resolveUpdateHours, hms, hme] at h
        exact (Except.ok.inj h).symm
    · constructor
      · intro s' e' hs' he'
        obtain rfl := (Option.some.inj hs').symm
        obtain rfl := (Option.some.inj he').symm
        simp only [resolveUpdateHours, hms, hme, durationHoursFromTimes] at h
        split at h
        · exact absurd h (by simp)
        · rename_i computed heq
          have hcomp : computed = (e' - s') / 3600 := by
            split at heq
            · exact absurd heq (by simp)
            · exact (Except.ok.inj heq).symm
          subst hcomp
          split at h
          · split at h
            · exact absurd h (by simp)
            · exact (Except.ok.inj h).symm
          · exact (Except.ok.inj h).symm
      · intro hcontra
        rcases hcontra with hc | hc
        · exact absurd hc (by simp)
        · exact absurd hc (by simp)

/-- What a successful `update_time_entry` pins down: the row that was found,
how the returned row was produced, and that both the overlap check and the
cumulative-hours check passed with the entry itself excluded. -/
theorem update_time_entry_ok_inv (db : DB) (eid entry_id : Nat)
    (payload : TimeEntryUpdateRequest) (db' : DB) (te : TimeEntry)
    (hok : update_time_entry db eid entry_id payload = .ok (db', te)) :
    ∃ cur,
      db.time_entries.find? (fun t => t.id == entry_id && t.employee_id == eid) = some cur ∧
      resolveUpdateHours payload cur = .ok te.hours_worked ∧
      te = applyTimeEntryUpdate payload te.hours_worked (mergedStart payload cur)
        (mergedEnd payload cur) cur ∧
      db'.time_entries = db.time_entries.map (fun t =>
        if t.id == entry_id then
          applyTimeEntryUpdate payload te.hours_worked (mergedStart payload cur)
            (mergedEnd payload cur) t
        else t) ∧
      (∀ s e, mergedStart payload cur = some s → mergedEnd payload cur = some e →
        hasOverlap db.time_entries eid cur.date s e (some entry_id) = false) ∧
      (∀ a, db.findAlloc cur.project_id cur.company_id = some a →
        a.unlimited_hours = false →
        db.usedHoursExcluding cur.project_id cur.company_id entry_id + te.hours_worked ≤
          a.available_hours.getD 0) := by
  unfold update_time_entry at hok
  split at hok
  · exact absurd hok (by simp)
  · rename_i cur hfind
    refine ⟨cur, hfind, ?_⟩
    split at hok
    · exact absurd hok (by simp)
    · rename_i q hres
      split at hok
      · exact absurd hok (by simp)
      · split at hok
        · exact absurd hok (by simp)
        · rename_i hnoov
          split at hok
          · exact absurd hok (by simp)
          · rename_i a halloc
            split at hok
            · exact absurd hok (by simp)
            · rename_i hbudget
              simp only [Except.ok.injEq, Prod.mk.injEq] at hok
              obtain ⟨hdb', hte⟩ := hok
              have hq : te.hours_worked = q := by
                rw [← hte]
                simp [applyTimeEntryUpdate]
              subst hq
              refine ⟨hres, hte.symm, by rw [← hdb'], ?_, ?_⟩
              · intro s e hs he
                rw [hs, he] at hnoov
                simpa using hnoov
              · intro a' ha' hunlim
                rw [halloc] at ha'
                cases ha'
                rw [not_and_or] at hbudget
                rcases hbudget with h | h
                · exact absurd hunlim h
                · exact le_of_not_lt h

/-- What a successful `create_time_entry` pins down: the resolved hours, the
inserted row, the new store, and that the overlap and cumulative-hours checks
passed. -/
theorem create_time_entry_ok_inv (db : DB) (eid : Nat) (entry : TimeEntryCreateRequest)
    (db' : DB) (te : TimeEntry)
    (hok : create_time_entry db eid entry = .ok (db', te)) :
    resolveHours entry = .ok te.hours_worked ∧
    te = newTimeEntryRow db eid entry te.hours_worked ∧
    db' = insertTimeEntry db te ∧
    (∀ s e, entry.start_time = some s → entry.end_time = some e →
      hasOverlap db.time_entries eid entry.date s e none = false) ∧
    (∀ a, db.findAlloc entry.project_id entry.company_id = some a →
      a.unlimited_hours = false →
      db.usedHours entry.project_id entry.company_id + te.hours_worked ≤
        a.available_hours.getD 0) := by
  unfold create_time_entry at hok
  split at hok
  · exact absurd hok (by simp)
  · rename_i q hres
    split at hok
    · exact absurd hok (by simp)
    · split at hok
      · exact absurd hok (by simp)
      · rename_i pc halloc
        split at hok
        · exact absurd hok (by simp)
        · rename_i hbudget
          have hbudget' : ∀ a, db.findAlloc entry.project_id entry.company_id = some a →
              a.unlimited_hours = false →
              db.usedHours entry.project_id entry.company_id + q ≤
                a.available_hours.getD 0 := by
            intro a ha hunlim
            rw [halloc] at ha
            cases ha
            rw [not_and_or] at hbudget
            rcases hbudget with h | h
            · exact absurd hunlim h
            · exact le_of_not_lt h
          split at hok
          · rename_i s e hs he
            split at hok
            · exact absurd hok (by simp)
            · rename_i hnoov
              simp only [Except.ok.injEq, Prod.mk.injEq] at hok
              obtain ⟨hdb', hte⟩ := hok
              have hq : te.hours_worked = q := by
                rw [← hte]
                simp [newTimeEntryRow]
              subst hq
              refine ⟨hres, hte.symm, ?_, ?_, hbudget'⟩
              · rw [← hdb', hte]
              · intro s' e' hs' he'
                rw [hs] at hs'
                rw [he] at he'
                obtain rfl := Option.some.inj hs'
                obtain rfl := Option.some.inj he'
                simpa using hnoov
          · rename_i hnowin
            simp only [Except.ok.injEq, Prod.mk.injEq] at hok
            obtain ⟨hdb', hte⟩ := hok
            have hq : te.hours_worked = q := by
              rw [← hte]
              simp [newTimeEntryRow]
            subst hq
            refine ⟨hres, hte.symm, ?_, ?_, hbudget'⟩
            · rw [← hdb', hte]
            · intro s' e' hs' he'
              exact (hnowin s' e' hs' he').elim

-- ---------------------------------------------------------------------------
-- C1
-- ---------------------------------------------------------------------------

/-- C1 counterexample.  The claim says that with `available_hours = 10` and an
existing service of `budget_hours = 10`, creating a second service with
`budget_hours = 1` is rejected and that the cumulative services budget never
exceeds the allocation.  On the code the second create succeeds and the
cumulative budget of the pair afterwards is 11 > 10. -/
theorem c1_cumulative_invariant_fails :
    exceptIsOk (create_service c1_db c1_req) = true ∧
    (match create_service c1_db c1_req with
     | .ok (db', _) => servicesBudgetSum db' 1 (some 1)
     | .error _ => 0) = 11 ∧
    (10 : ℚ) < 11 := by
  norm_num [create_service, c1_db, c1_req, serviceAvailableHoursCreate, DB.findAlloc,
    servicesBudgetSum, exceptIsOk, newServiceRow, List.find?, List.filter]

/-- C1 amended: a successful service create with a company only guarantees
that the *new* service's own `budget_hours` does not exceed the allocation's
available hours when the allocation is bounded; the cumulative sum across
existing services is not checked. -/
theorem c1_create_checks_own_budget_only
    (db : DB) (req : ServiceCreateRequest) (db' : DB) (s : Service)
    (cid : Nat) (a : Allocation)
    (hok : create_service db req = .ok (db', s))
    (hcid : req.company_id = some cid)
    (halloc : db.findAlloc req.project_id cid = some a)
    (hunlim : a.unlimited_hours = false) :
    req.budget_hours ≤ a.available_hours.getD 0 := by
  unfold create_service at hok
  split at hok
  · exact absurd hok (by simp)
  · split at hok
    · exact absurd hok (by simp)
    · split at hok
      · exact absurd hok (by simp)
      · rename_i hnotgt
        rw [not_lt] at hnotgt
        simpa [serviceAvailableHoursCreate, hcid, halloc, hunlim] using hnotgt

/-- C1 amended, witness: the Scenario-1 second create succeeds and instantiates
the per-service bound (1 ≤ 10). -/
theorem c1_create_checks_own_budget_only_witness :
    c1_req.budget_hours ≤ (Allocation.mk 1 1 (some 10) false).available_hours.getD 0 :=
  c1_create_checks_own_budget_only c1_db c1_req
    { c1_db with
        services := c1_db.services ++ [newServiceRow c1_db c1_req],
        next_id := 102 }
    (newServiceRow c1_db c1_req)
    1 ⟨1, 1, some 10, false⟩
    (by norm_num [create_service, c1_db, c1_req, serviceAvailableHoursCreate, DB.findAlloc,
        newServiceRow, List.find?])
    (by norm_num [c1_req])
    (by norm_num [c1_db, DB.findAlloc, List.find?, c1_req])
    rfl

-- ---------------------------------------------------------------------------
-- C5
-- ---------------------------------------------------------------------------

/-- C5: where the code diverges from the claim.  The unlimited allocation is
represented by the `999999` sentinel, so the Scenario-2 request with
`budget_hours = 1000000` is rejected, not admitted: the comparison
`1000000 > 999999` fires even though the code's own comment says
"Unlimited hours - no validation needed". -/
theorem c5_unlimited_sentinel_rejects_large_budget :
    create_service c5_db c5_req =
      .error ⟨400, budgetExceededMsg 1000000 999999⟩ := by
  norm_num [create_service, c5_db, c5_req, serviceAvailableHoursCreate, DB.findAlloc,
    List.find?]

-- ---------------------------------------------------------------------------
-- C6
-- ---------------------------------------------------------------------------

/-- C6: where the code diverges from the claim.  The update-path re-check
reads `COALESCE(available_hours, 0)` and never consults `unlimited_hours`,
so raising `budget_hours` to 10 on a service whose allocation is unlimited
(hours NULL) is rejected against an available figure of 0. -/
theorem c6_update_recheck_ignores_unlimited :
    update_service c6_db 10 c6_req =
      .error ⟨400, budgetExceededMsg 10 0⟩ := by
  norm_num [update_service, c6_db, c6_req, updateAvailableHours, DB.findAlloc,
    ServiceUpdateRequest.hasFields, orElseOpt, List.find?, List.filter]

-- ---------------------------------------------------------------------------
-- C9
-- ---------------------------------------------------------------------------

/-- C9 counterexample.  The claim says every omitted updatable field retains
its stored value.  On the code, an empty patch succeeds but wipes the stored
`service_id` (was `some 3`) and `comment` (was `some "keep"`) to `none`,
because the UPDATE statement writes both straight from the payload. -/
theorem c9_omitted_fields_not_all_retained :
    exceptIsOk (update_time_entry c9_db 7 1 c9_payload) = true ∧
    (match update_time_entry c9_db 7 1 c9_payload with
     | .ok (_, te) => (te.service_id, te.comment)
     | .error _ => (some 999, some "unreachable")) = (none, none) ∧
    ((c9_db.time_entries.map (fun te => (te.service_id, te.comment))) =
      [(some 3, some "keep")]) := by
  norm_num [update_time_entry, c9_db, c9_payload, resolveUpdateHours, mergedStart,
    mergedEnd, orElseOpt, DB.findAlloc, DB.usedHoursExcluding, hasOverlap,
    applyTimeEntryUpdate, exceptIsOk, List.find?, List.filter]

/-- C9 amended: on a successful time-entry update the merged times keep the
stored value wherever the patch omitted them, omitted `hours_worked` keeps
the stored value when no full window is present (with a full window the hours
are recomputed from it), while `service_id` and `comment` are always
overwritten with the payload's values (null when omitted). -/
theorem c9_update_patch_merge
    (db : DB) (eid entry_id : Nat) (payload : TimeEntryUpdateRequest)
    (db' : DB) (te cur : TimeEntry)
    (hfind : db.time_entries.find? (fun t => t.id == entry_id && t.employee_id == eid) =
      some cur)
    (hok : update_time_entry db eid entry_id payload = .ok (db', te)) :
    te.start_time = orElseOpt payload.start_time cur.start_time ∧
    te.end_time = orElseOpt payload.end_time cur.end_time ∧
    te.service_id = payload.service_id ∧
    te.comment = payload.comment ∧
    (∀ s e, te.start_time = some s → te.end_time = some e →
      te.hours_worked = (e - s) / 3600) ∧
    ((te.start_time = none ∨ te.end_time = none) →
      te.hours_worked = payload.hours_worked.getD cur.hours_worked) := by
  obtain ⟨cur', hfind', hres, hte, -, -, -⟩ :=
    update_time_entry_ok_inv db eid entry_id payload db' te hok
  obtain rfl : cur = cur' := Option.some.inj (hfind.symm.trans hfind')
  have hstart : te.start_time = mergedStart payload cur := by
    rw [hte]
    simp [applyTimeEntryUpdate]
  have hend : te.end_time = mergedEnd payload cur := by
    rw [hte]
    simp [applyTimeEntryUpdate]
  have hspec := resolveUpdateHours_ok_spec payload cur te.hours_worked hres
  refine ⟨by rw [hstart]; rfl, by rw [hend]; rfl, ?_, ?_, ?_, ?_⟩
  · rw [hte]
    simp [applyTimeEntryUpdate]
  · rw [hte]
    simp [applyTimeEntryUpdate]
  · intro s e hs he
    exact hspec.1 s e (hstart ▸ hs) (hend ▸ he)
  · intro hn
    refine hspec.2 ?_
    rcases hn with hn | hn
    · exact Or.inl (hstart ▸ hn)
    · exact Or.inr (hend ▸ hn)

/-- C9 amended, witness: a patch carrying only a service link and a comment
leaves the stored times in place and overwrites `service_id` and `comment`. -/
theorem c9_update_patch_merge_witness :
    (⟨1, 7, 1, 1, some 5, 0, 2, none, none, some "x"⟩ : TimeEntry).start_time =
        orElseOpt c9_payload2.start_time (TimeEntry.mk 1 7 1 1 (some 3) 0 2 none none
          (some "keep")).start_time ∧
    (⟨1, 7, 1, 1, some 5, 0, 2, none, none, some "x"⟩ : TimeEntry).end_time =
        orElseOpt c9_payload2.end_time (TimeEntry.mk 1 7 1 1 (some 3) 0 2 none none
          (some "keep")).end_time ∧
    (⟨1, 7, 1, 1, some 5, 0, 2, none, none, some "x"⟩ : TimeEntry).service_id =
        c9_payload2.service_id ∧
    (⟨1, 7, 1, 1, some 5, 0, 2, none, none, some "x"⟩ : TimeEntry).comment =
        c9_payload2.comment := by
  have h := c9_update_patch_merge c9_db 7 1 c9_payload2
    { c9_db with time_entries := [⟨1, 7, 1, 1, some 5, 0, 2, none, none, some "x"⟩] }
    ⟨1, 7, 1, 1, some 5, 0, 2, none, none, some "x"⟩
    ⟨1, 7, 1, 1, some 3, 0, 2, none, none, some "keep"⟩
    (by norm_num [c9_db, List.find?])
    (by norm_num [update_time_entry, c9_db, c9_payload2, resolveUpdateHours, mergedStart,
      mergedEnd, orElseOpt, DB.findAlloc, DB.usedHoursExcluding, hasOverlap,
      applyTimeEntryUpdate, List.find?, List.filter])
  exact ⟨h.1, h.2.1, h.2.2.1, h.2.2.2.1⟩

-- ---------------------------------------------------------------------------
-- C8
-- ---------------------------------------------------------------------------

/-- C8: a successful time-entry update (i) leaves the entry's `project_id`,
`company_id`, `date` and `employee_id` unchanged (the patch shape has no such
fields, so attempts to change them are dropped before the handler rather than
rejected), (ii) validated the cumulative-hours bound with the entry itself
excluded from the sum, (iii) validated the overlap rule against only the
*other* entries of the employee and day, and (iv) leaves every other stored
entry untouched. -/
theorem c8_update_excludes_self_and_keeps_identity
    (db : DB) (eid entry_id : Nat) (payload : TimeEntryUpdateRequest)
    (db' : DB) (te cur : TimeEntry)
    (hfind : db.time_entries.find? (fun t => t.id == entry_id && t.employee_id == eid) =
      some cur)
    (hok : update_time_entry db eid entry_id payload = .ok (db', te)) :
    (te.project_id = cur.project_id ∧ te.company_id = cur.company_id ∧
      te.date = cur.date ∧ te.employee_id = cur.employee_id) ∧
    (∀ a, db.findAlloc cur.project_id cur.company_id = some a →
      a.unlimited_hours = false →
      db.usedHoursExcluding cur.project_id cur.company_id entry_id + te.hours_worked ≤
        a.available_hours.getD 0) ∧
    (∀ s e, te.start_time = some s → te.end_time = some e →
      ∀ other ∈ db.time_entries, other.id ≠ entry_id → other.employee_id = eid →
        other.date = cur.date →
        ∀ os oe, other.start_time = some os → other.end_time = some oe →
          (oe ≤ s ∨ os ≥ e)) ∧
    (∀ other ∈ db.time_entries, other.id ≠ entry_id → other ∈ db'.time_entries) := by
  obtain ⟨cur', hfind', hres, hte, hdb', hnoov, hbudget⟩ :=
    update_time_entry_ok_inv db eid entry_id payload db' te hok
  obtain rfl : cur = cur' := Option.some.inj (hfind.symm.trans hfind')
  have hstart : te.start_time = mergedStart payload cur := by
    rw [hte]
    simp [applyTimeEntryUpdate]
  have hend : te.end_time = mergedEnd payload cur := by
    rw [hte]
    simp [applyTimeEntryUpdate]
  refine ⟨?_, hbudget, ?_, ?_⟩
  · rw [hte]
    simp [applyTimeEntryUpdate]
  · intro s e hs he other hmem hid hemp hdate os oe hos hoe
    have hov := hnoov s e (hstart ▸ hs) (hend ▸ he)
    unfold hasOverlap at hov
    rw [List.any_eq_false] at hov
    have hother := hov other hmem
    have hover : windowOverlaps s e other = false := by
      by_contra hcon
      rw [Bool.not_eq_false] at hcon
      exact hother (by simp [hemp, hdate, hid, hcon])
    simp only [windowOverlaps, hos, hoe, decide_eq_false_iff_not, not_not] at hover
    exact hover
  · intro other hmem hid
    rw [hdb']
    have : (if other.id == entry_id then
        applyTimeEntryUpdate payload te.hours_worked (mergedStart payload cur)
          (mergedEnd payload cur) other
      else other) = other := by
      rw [if_neg]
      simp [hid]
    exact this ▸ List.mem_map_of_mem _ hmem

/-- C8 witness: a comment-only patch on an entry that fully occupies both its
bounded allocation and its own time window succeeds (possible only because
the entry itself is excluded from both checks) and keeps `project_id`,
`company_id`, `date` and `employee_id`. -/
theorem c8_update_excludes_self_and_keeps_identity_witness :
    c8_te.project_id = c8_cur.project_id ∧ c8_te.company_id = c8_cur.company_id ∧
      c8_te.date = c8_cur.date ∧ c8_te.employee_id = c8_cur.employee_id :=
  (c8_update_excludes_self_and_keeps_identity c8_db 7 1 c8_payload
    { c8_db with time_entries := [c8_te] } c8_te c8_cur
    (by norm_num [c8_db, c8_cur, List.find?])
    (by norm_num [update_time_entry, c8_db, c8_payload, c8_te, resolveUpdateHours,
      mergedStart, mergedEnd, orElseOpt, durationHoursFromTimes, tolerance,
      DB.findAlloc, DB.usedHoursExcluding, hasOverlap, windowOverlaps,
      applyTimeEntryUpdate, List.find?, List.filter])).1

-- ---------------------------------------------------------------------------
-- C2
-- ---------------------------------------------------------------------------

/-- C2: on time-entry create with resolved in-range hours, a missing
allocation row for the (project, company) pair is rejected with the
"not linked" message, and on a bounded allocation any request pushing the
cumulative hours past the available hours is rejected with the message
reporting `remaining = available_hours - sum`. -/
theorem c2_create_allocation_checks
    (db : DB) (eid : Nat) (entry : TimeEntryCreateRequest) (q : ℚ)
    (hres : resolveHours entry = .ok q)
    (hrange : ¬(q < 0 ∨ q > 24)) :
    (db.findAlloc entry.project_id entry.company_id = none →
      create_time_entry db eid entry =
        .error ⟨400, notLinkedMsg entry.project_id entry.company_id⟩) ∧
    (∀ a, db.findAlloc entry.project_id entry.company_id = some a →
      a.unlimited_hours = false →
      db.usedHours entry.project_id entry.company_id + q > a.available_hours.getD 0 →
      create_time_entry db eid entry =
        .error ⟨400, remainingMsg q
          (a.available_hours.getD 0 - db.usedHours entry.project_id entry.company_id)⟩) := by
  constructor
  · intro hnone
    simp [create_time_entry, hres, hnone, if_neg hrange]
  · intro a ha hunlim hgt
    simp [create_time_entry, hres, ha, if_neg hrange, hunlim, hgt]

/-- C2 witness (Scenario 5): with 8 of 8 hours logged, a half-hour entry is
rejected reporting zero hours remaining. -/
theorem c2_create_allocation_checks_witness :
    create_time_entry c2_db 7 c2_entry = .error ⟨400, remainingMsg (1/2) 0⟩ := by
  have h := (c2_create_allocation_checks c2_db 7 c2_entry (1/2)
    (by norm_num [resolveHours, c2_entry])
    (by norm_num)).2
    ⟨1, 1, some 8, false⟩
    (by norm_num [c2_db, c2_entry, DB.findAlloc, List.find?])
    rfl
    (by norm_num [DB.usedHours, c2_db, c2_entry, List.filter])
  norm_num [DB.usedHours, c2_db, c2_entry, List.filter] at h
  exact h

-- ---------------------------------------------------------------------------
-- C4
-- ---------------------------------------------------------------------------

/-- C4: hour resolution on time-entry create.  (i) With a full window and
supplied hours differing from the computed duration by more than `1e-6`, the
request is rejected with the mismatch message.  (ii) With a full window and
no supplied hours, a successful create stores the duration computed from the
window.  (iii) With neither supplied hours nor a full window, the request is
rejected. -/
theorem c4_create_hours_resolution
    (db : DB) (eid : Nat) (entry : TimeEntryCreateRequest) :
    (∀ s e hw, entry.start_time = some s → entry.end_time = some e →
      entry.hours_worked = some hw → s < e → |hw - (e - s) / 3600| > tolerance →
      create_time_entry db eid entry =
        .error ⟨400, "hours_worked must match the duration between start_time and end_time"⟩) ∧
    (∀ s e db' te, entry.start_time = some s → entry.end_time = some e →
      entry.hours_worked = none →
      create_time_entry db eid entry = .ok (db', te) →
      te.hours_worked = (e - s) / 3600) ∧
    (entry.hours_worked = none → (entry.start_time = none ∨ entry.end_time = none) →
      create_time_entry db eid entry =
        .error ⟨400, "Provide either hours_worked, or start_time and end_time"⟩) := by
  refine ⟨?_, ?_, ?_⟩
  · intro s e hw hs he hhw hslt htol
    have hres : resolveHours entry =
        .error ⟨400, "hours_worked must match the duration between start_time and end_time"⟩ := by
      simp [resolveHours, hs, he, hhw, durationHoursFromTimes, if_neg (not_le.mpr hslt),
        if_pos htol]
    simp [create_time_entry, hres]
  · intro s e db' te hs he hhw hok
    obtain ⟨hres, -, -, -, -⟩ := create_time_entry_ok_inv db eid entry db' te hok
    simp only [resolveHours, hs, he, hhw, durationHoursFromTimes] at hres
    by_cases hle : e ≤ s
    · rw [if_pos hle] at hres
      exact absurd hres (by simp)
    · rw [if_neg hle] at hres
      exact (Except.ok.inj hres).symm
  · intro hhw hnowin
    have hres : resolveHours entry =
        .error ⟨400, "Provide either hours_worked, or start_time and end_time"⟩ := by
      rcases hnowin with hn | hn
      · rw [resolveHours, hn]
        simp [hhw]
      · rcases hms : entry.start_time with _ | s
        · rw [resolveHours, hms]
          simp [hhw]
        · rw [resolveHours, hms, hn]
          simp [hhw]
    simp [create_time_entry, hres]

/-- C4 witness (Scenario 3): `hours_worked = 5` with a 09:00-13:00 window
(computed duration 4 h) is rejected with the mismatch message. -/
theorem c4_create_hours_resolution_witness :
    create_time_entry c5_db 7 (⟨1, 1, 0, none, none, some 5, some 32400, some 46800⟩ :
      TimeEntryCreateRequest) =
      .error ⟨400, "hours_worked must match the duration between start_time and end_time"⟩ :=
  (c4_create_hours_resolution c5_db 7
    ⟨1, 1, 0, none, none, some 5, some 32400, some 46800⟩).1
    32400 46800 5 rfl rfl rfl (by norm_num) (by norm_num [tolerance])

-- ---------------------------------------------------------------------------
-- C3
-- ---------------------------------------------------------------------------

/-- C3: (i) a successful time-entry create preserves the pairwise no-overlap
invariant across same-employee same-date windowed entries; (ii) when the
earlier checks pass and the requested window overlaps a stored one, the
create is rejected with the overlap error; (iii) the Scenario-4 entry that
merely touches the stored window at 11:00 is admitted. -/
theorem c3_no_overlap_invariant :
    (∀ db eid entry db' te,
      db.time_entries.Pairwise entriesCompatible →
      create_time_entry db eid entry = .ok (db', te) →
      db'.time_entries.Pairwise entriesCompatible) ∧
    (∀ db eid entry q s e a,
      resolveHours entry = .ok q → ¬(q < 0 ∨ q > 24) →
      entry.start_time = some s → entry.end_time = some e →
      db.findAlloc entry.project_id entry.company_id = some a →
      ¬(a.unlimited_hours = false ∧
        db.usedHours entry.project_id entry.company_id + q > a.available_hours.getD 0) →
      hasOverlap db.time_entries eid entry.date s e none = true →
      create_time_entry db eid entry =
        .error ⟨400, "This time range overlaps with an existing entry for this day."⟩) ∧
    exceptIsOk (create_time_entry c3_db 7 c3_touching) = true := by
  refine ⟨?_, ?_, ?_⟩
  · intro db eid entry db' te hpw hok
    obtain ⟨-, hte, hdb', hnoov, -⟩ := create_time_entry_ok_inv db eid entry db' te hok
    rw [hdb']
    simp only [insertTimeEntry]
    rw [List.pairwise_append]
    refine ⟨hpw, List.pairwise_singleton _ _, ?_⟩
    intro old hold b hb
    obtain rfl : b = te := by simpa using hb
    intro hemp hdate s1 t1 s2 t2 hs1 ht1 hs2 ht2
    have hs2' : entry.start_time = some s2 := by
      rw [hte] at hs2
      simpa [newTimeEntryRow] using hs2
    have ht2' : entry.end_time = some t2 := by
      rw [hte] at ht2
      simpa [newTimeEntryRow] using ht2
    have hov := hnoov s2 t2 hs2' ht2'
    unfold hasOverlap at hov
    rw [List.any_eq_false] at hov
    have hother := hov old hold
    have hemp' : old.employee_id = eid := by
      rw [hemp, hte]
      simp [newTimeEntryRow]
    have hdate' : old.date = entry.date := by
      rw [hdate, hte]
      simp [newTimeEntryRow]
    have hover : windowOverlaps s2 t2 old = false := by
      by_contra hcon
      rw [Bool.not_eq_false] at hcon
      exact hother (by simp [hemp', hdate', hcon])
    simp only [windowOverlaps, hs1, ht1, decide_eq_false_iff_not, not_not] at hover
    exact hover
  · intro db eid entry q s e a hres hrange hs he halloc hnobudget hov
    simp [create_time_entry, hres, if_neg hrange, halloc, if_neg hnobudget, hs, he, hov]
  · norm_num [create_time_entry, c3_db, c3_touching, resolveHours, durationHoursFromTimes,
      DB.findAlloc, DB.usedHours, hasOverlap, windowOverlaps, exceptIsOk,
      List.find?, List.filter]

/-- C3 witness (Scenario 4): the 10:00-12:00 request intersecting the stored
09:00-11:00 window is rejected with the overlap error. -/
theorem c3_no_overlap_invariant_witness :
    create_time_entry c3_db 7 c3_overlapping =
      .error ⟨400, "This time range overlaps with an existing entry for this day."⟩ :=
  c3_no_overlap_invariant.2.1 c3_db 7 c3_overlapping 2 36000 43200
    ⟨1, 1, none, true⟩
    (by norm_num [resolveHours, c3_overlapping, durationHoursFromTimes])
    (by norm_num)
    rfl
    rfl
    (by norm_num [c3_db, c3_overlapping, DB.findAlloc, List.find?])
    (by norm_num)
    (by norm_num [c3_db, c3_overlapping, hasOverlap, windowOverlaps, List.any, List.find?])

-- ---------------------------------------------------------------------------
-- C7
-- ---------------------------------------------------------------------------

/-- Field view of the row inserted for one link: under the canonical-link
convention (an unlimited link carries no hours figure) the row carries the
link's own fields. -/
theorem linkToAllocation_fields (pid : Nat) (l : ProjectCompanyLink)
    (hcanon : l.unlimited_hours = true → l.available_hours = none) :
    (linkToAllocation pid l).project_id = pid ∧
    (linkToAllocation pid l).company_id = l.company_id ∧
    (linkToAllocation pid l).available_hours = l.available_hours ∧
    (linkToAllocation pid l).unlimited_hours = l.unlimited_hours := by
  unfold linkToAllocation
  rcases hu : l.unlimited_hours
  · simp [hu]
  · simp [hu, hcanon hu]

/-- C7: `setAllocations` followed by a re-fetch.  After
`update_project_companies db pid links` with a valid link list (each linked
company exists, links are canonical `hours | unlimited` values, no duplicate
companies), (i) the project's allocation rows are exactly the inserted links
(wholesale replacement, independent of whatever was there before), (ii) other
projects' rows are untouched, and (iii) re-fetching the project yields
company links that are, keyed by `company_id`, exactly the written list (a
permutation of it, since the fetch orders by company name). -/
theorem c7_set_allocations_roundtrip
    (db : DB) (pid : Nat) (links : List ProjectCompanyLink)
    (hproj : (db.projects.find? (fun p => p.id == pid)).isSome = true)
    (hcomp : ∀ l ∈ links, (db.companies.find? (fun c => c.id == l.company_id)).isSome = true)
    (hcanon : ∀ l ∈ links, l.unlimited_hours = true → l.available_hours = none)
    (hnodup : links.Pairwise (fun l1 l2 => l1.company_id ≠ l2.company_id)) :
    ((update_project_companies db pid links).allocations.filter
        (fun a => a.project_id == pid)) = links.map (linkToAllocation pid) ∧
    ((update_project_companies db pid links).allocations.filter
        (fun a => a.project_id != pid)) =
      db.allocations.filter (fun a => a.project_id != pid) ∧
    (∃ resp, get_project_with_companies (update_project_companies db pid links) pid =
        some resp ∧
      List.Perm
        (resp.company_links.map (fun r => (r.company_id, r.available_hours, r.unlimited_hours)))
        (links.map (fun l => (l.company_id, l.available_hours, l.unlimited_hours)))) := by
  have hmapped : ∀ x ∈ links.map (linkToAllocation pid), (x.project_id == pid) = true := by
    intro x hx
    obtain ⟨l, hl, rfl⟩ := List.mem_map.mp hx
    unfold linkToAllocation
    split <;> simp
  have hpartA : ((update_project_companies db pid links).allocations.filter
      (fun a => a.project_id == pid)) = links.map (linkToAllocation pid) := by
    unfold update_project_companies
    rw [List.filter_append]
    have h0 : ((db.allocations.filter (fun a => a.project_id != pid)).filter
        (fun a => a.project_id == pid)) = [] := by
      rw [List.filter_eq_nil_iff]
      intro a ha
      have hne := List.mem_filter.mp ha
      simp only [bne_iff_ne, ne_eq] at hne
      simp [hne.2]
    have h1 : ((links.map (linkToAllocation pid)).filter
        (fun a => a.project_id == pid)) = links.map (linkToAllocation pid) :=
      List.filter_eq_self.mpr hmapped
    rw [h0, h1, List.nil_append]
  refine ⟨hpartA, ?_, ?_⟩
  · unfold update_project_companies
    rw [List.filter_append]
    have h0 : ((links.map (linkToAllocation pid)).filter
        (fun a => a.project_id != pid)) = [] := by
      rw [List.filter_eq_nil_iff]
      intro a ha
      have := hmapped a ha
      simp only [beq_iff_eq] at this
      simp [this]
    have h1 : ((db.allocations.filter (fun a => a.project_id != pid)).filter
        (fun a => a.project_id != pid)) = db.allocations.filter (fun a => a.project_id != pid) :=
      List.filter_eq_self.mpr (by
        intro a ha
        exact (List.mem_filter.mp ha).2)
    rw [h0, h1, List.append_nil]
  · obtain ⟨p, hp⟩ := Option.isSome_iff_exists.mp hproj
    have hprojs : (update_project_companies db pid links).projects = db.projects := rfl
    have hcomps : (update_project_companies db pid links).companies = db.companies := rfl
    have key : ∀ ls : List ProjectCompanyLink,
        (∀ l ∈ ls, (db.companies.find? (fun c => c.id == l.company_id)).isSome = true) →
        (∀ l ∈ ls, l.unlimited_hours = true → l.available_hours = none) →
        ((ls.filterMap (fun l =>
            (db.companies.find? (fun c => c.id == (linkToAllocation pid l).company_id)).map
              (fun c => ProjectCompanyResponse.mk (linkToAllocation pid l).company_id
                c.company_name (linkToAllocation pid l).available_hours
                (linkToAllocation pid l).unlimited_hours))).map
          (fun r => (r.company_id, r.available_hours, r.unlimited_hours))) =
          ls.map (fun l => (l.company_id, l.available_hours, l.unlimited_hours)) := by
      intro ls
      induction ls with
      | nil =>
        intro _ _
        simp
      | cons hd tl ih =>
        intro hc hca
        obtain ⟨hpid, hcid, hav, hun⟩ := linkToAllocation_fields pid hd (hca hd (by simp))
        obtain ⟨c, hcfind⟩ := Option.isSome_iff_exists.mp (hc hd (by simp))
        rw [List.filterMap_cons, hcid, hcfind]
        simp only [Option.map_some']
        rw [List.map_cons,
          ih (fun l hl => hc l (List.mem_cons_of_mem _ hl))
            (fun l hl => hca l (List.mem_cons_of_mem _ hl))]
        simp [hav, hun]
    simp only [get_project_with_companies, hprojs, hcomps, hp]
    refine ⟨_, rfl, ?_⟩
    rw [hpartA, List.filterMap_map]
    refine ((List.mergeSort_perm _ _).map _).trans ?_
    rw [show ((fun a : Allocation =>
        (db.companies.find? (fun c => c.id == a.company_id)).map
          (fun c => ProjectCompanyResponse.mk a.company_id c.company_name
            a.available_hours a.unlimited_hours)) ∘ linkToAllocation pid) =
        (fun l => (db.companies.find? (fun c => c.id == (linkToAllocation pid l).company_id)).map
          (fun c => ProjectCompanyResponse.mk (linkToAllocation pid l).company_id
            c.company_name (linkToAllocation pid l).available_hours
            (linkToAllocation pid l).unlimited_hours)) from rfl]
    rw [key links hcomp hcanon]

/-- C7 witness: replacing project 1's allocations with `c7_links` leaves
exactly the rows of the new links for project 1 (the stale company-9 row is
gone) and the other project's rows untouched. -/
theorem c7_set_allocations_roundtrip_witness :
    ((update_project_companies c7_db 1 c7_links).allocations.filter
        (fun a => a.project_id == 1)) = c7_links.map (linkToAllocation 1) ∧
    ((update_project_companies c7_db 1 c7_links).allocations.filter
        (fun a => a.project_id != 1)) =
      c7_db.allocations.filter (fun a => a.project_id != 1) := by
  have h := c7_set_allocations_roundtrip c7_db 1 c7_links
    (by decide) (by decide) (by decide) (by decide)
  exact ⟨h.1, h.2.1⟩

-- ---------------------------------------------------------------------------
-- C10
-- ---------------------------------------------------------------------------

/-- The Python accumulation loop of the summary endpoint computes the four
component sums. -/
theorem summary_totals_foldl (rows : List ServiceRow) (acc : ServicesTotals) :
    rows.foldl
      (fun (acc : ServicesTotals) r =>
        { hours_budget := acc.hours_budget + r.budget_hours,
          hours_spent := acc.hours_spent + r.spent_hours,
          cost_budget := acc.cost_budget + r.budget_cost,
          cost_spent := acc.cost_spent + r.spent_cost })
      acc =
    { hours_budget := acc.hours_budget + (rows.map (fun r => r.budget_hours)).sum,
      hours_spent := acc.hours_spent + (rows.map (fun r => r.spent_hours)).sum,
      cost_budget := acc.cost_budget + (rows.map (fun r => r.budget_cost)).sum,
      cost_spent := acc.cost_spent + (rows.map (fun r => r.spent_cost)).sum } := by
  induction rows generalizing acc with
  | nil => simp
  | cons hd tl ih =>
    rw [List.foldl_cons, ih]
    simp [add_assoc]

/-- C10: a successful project services summary assigns each row the spent
hours, budget cost and spent cost formulas of the spec, its totals are the
sums of the per-row figures, and the endpoint's remaining-hours figure is the
unlimited sentinel when any allocation of the project is unlimited, else the
total non-unlimited available hours minus the summed services budget. -/
theorem c10_project_services_summary
    (db : DB) (pid : Nat) (resp : ProjectServicesSummaryResponse)
    (hok : get_project_services_summary db pid = .ok resp) :
    (∀ r ∈ resp.services, ∃ s ∈ db.services, s.project_id = pid ∧
      r.budget_hours = s.budget_hours ∧
      r.spent_hours = ((db.time_entries.filter (fun te => te.service_id == some s.id)).map
        (fun te => te.hours_worked)).sum ∧
      r.budget_cost = (if s.price_type = "FIXED" then s.fixed_price.getD 0
        else if s.price_type = "HOURLY" then s.budget_hours * s.hourly_rate.getD 0 else 0) ∧
      r.spent_cost = (if s.price_type = "FIXED" then 0
        else if s.price_type = "HOURLY" then r.spent_hours * s.hourly_rate.getD 0 else 0)) ∧
    resp.totals.hours_budget = (resp.services.map (fun r => r.budget_hours)).sum ∧
    resp.totals.hours_spent = (resp.services.map (fun r => r.spent_hours)).sum ∧
    resp.totals.cost_budget = (resp.services.map (fun r => r.budget_cost)).sum ∧
    resp.totals.cost_spent = (resp.services.map (fun r => r.spent_cost)).sum ∧
    projectRemainingHours db pid =
      (if projectHasUnlimited db pid then 999999
       else projectTotalAvailableHours db pid - resp.totals.hours_budget) := by
  unfold get_project_services_summary at hok
  split at hok
  · exact absurd hok (by simp)
  · simp only [Except.ok.injEq] at hok
    obtain rfl := hok.symm
    simp only []
    have hbudget_eq : ∀ s : Service, (mkServiceRow db s).budget_hours = s.budget_hours := by
      intro s
      simp [mkServiceRow]
    refine ⟨?_, ?_, ?_, ?_, ?_, ?_⟩
    · intro r hr
      obtain ⟨s, hs, rfl⟩ := List.mem_map.mp hr
      obtain ⟨hsmem, hspid⟩ := List.mem_filter.mp hs
      refine ⟨s, hsmem, by simpa using hspid, by simp [mkServiceRow], rfl, ?_, ?_⟩
      · simp only [mkServiceRow, serviceBudgetCost]
        by_cases hf : s.price_type = "FIXED"
        · simp [hf]
        · by_cases hh : s.price_type = "HOURLY"
          · simp [hf, hh]
          · simp [hf, hh]
      · simp only [mkServiceRow, serviceSpentCost, serviceSpentHours]
        by_cases hf : s.price_type = "FIXED"
        · simp [hf]
        · by_cases hh : s.price_type = "HOURLY"
          · simp [hf, hh]
          · simp [hf, hh]
    · rw [summary_totals_foldl]
      simp
    · rw [summary_totals_foldl]
      simp
    · rw [summary_totals_foldl]
      simp
    · rw [summary_totals_foldl]
      simp
    · rw [summary_totals_foldl]
      unfold projectRemainingHours
      have hcomp2 : ((fun r : ServiceRow => r.budget_hours) ∘ mkServiceRow db) =
          (fun s : Service => s.budget_hours) := by
        funext s
        simp [mkServiceRow]
      simp [List.map_map, hcomp2]

/-- C10 witness: on `c10_db` the totals are the row sums and the remaining
figure is total available (10) minus summed budgets (5). -/
theorem c10_project_services_summary_witness :
    c10_resp.totals.hours_budget = (c10_resp.services.map (fun r => r.budget_hours)).sum ∧
    c10_resp.totals.hours_spent = (c10_resp.services.map (fun r => r.spent_hours)).sum ∧
    c10_resp.totals.cost_budget = (c10_resp.services.map (fun r => r.budget_cost)).sum ∧
    c10_resp.totals.cost_spent = (c10_resp.services.map (fun r => r.spent_cost)).sum ∧
    projectRemainingHours c10_db 1 =
      (if projectHasUnlimited c10_db 1 then 999999
       else projectTotalAvailableHours c10_db 1 - c10_resp.totals.hours_budget) :=
  (c10_project_services_summary c10_db 1 c10_resp
    (by
      have hne : ("HOURLY" = "FIXED") = False := by
        simp
      norm_num [get_project_services_summary, c10_db, c10_resp, mkServiceRow,
        serviceSpentHours, serviceBudgetCost, serviceSpentCost, List.find?,
        List.filter]
      norm_num [show ((2 : Nat) == 1) = false from rfl, hne])).2
